import Mathlib

/-!
Verification development for the configurator orchestration engine
(src/src/Configurator.cpp).  The C++ source is shallowly embedded: the
engine's mutable members become fields of explicit state records, the
external collaborators (handler virtual methods, JSON parser, filesystem,
bus transport) become function-valued parameters gathered in an `Env`
record, and each C++ member function becomes a Lean function from state to
state.  `MojErr` codes are integers; in the Mojo framework the
`MojErrThrow` and `MojErrCheck` macros are early returns of the error
code, which is how they are translated here.
-/

/-- Mojo error codes are plain integers; 0 (`MojErrNone`) means success. -/
abbrev MojErr := Int

def MojErrNone : MojErr := 0

/- The concrete numeric values of the following codes live in the external
framework header (not part of this repository); only that they are
distinct and nonzero matters to the translated logic. -/

def MojErrInternal : MojErr := -1

def MojErrInProgress : MojErr := -2

def MojErrAccessDenied : MojErr := -3

/-- A file modification time as recorded by stat: seconds and nanoseconds.
The cache comparison in the source uses `st_mtime` (the seconds part)
only, while stamp creation copies the nanoseconds and adds one second. -/
structure Mtime where
  sec : Nat
  nsec : Nat
deriving DecidableEq, Repr

/-- Strict order on modification times (seconds, then nanoseconds). -/
def Mtime.lt (a b : Mtime) : Prop :=
  a.sec < b.sec ∨ (a.sec = b.sec ∧ a.nsec < b.nsec)

/-- The slice of a `MojObject` response this file inspects: the optional
boolean "returnValue" field read by `response.get`, and the result code of
`response.toJson` (checked through `MojErrCheck`, an early return). -/
structure MojObject where
  returnValue : Option Bool
  toJsonErr : MojErr
deriving DecidableEq, Repr

/-- The run mode (`RunType` in Configurator.h): selects which handler
method is dispatched and the cache direction on success. -/
inductive RunType where
  | Configure
  | Reconfigure
  | RemoveConfiguration
deriving DecidableEq, Repr

/-- The stamp directory contents: stamp file path to its mtime. -/
abbrev Stamps := List (String × Mtime)

def lookupStamp (s : Stamps) (k : String) : Option Mtime :=
  (s.find? (fun e => e.1 = k)).map (fun e => e.2)

def eraseStamp (s : Stamps) (k : String) : Stamps :=
  s.filter (fun e => e.1 ≠ k)

def insertStamp (s : Stamps) (k : String) (m : Mtime) : Stamps :=
  (k, m) :: eraseStamp s k

/-- Character-list worker for `Replace`: replace every occurrence of
`pat`, resuming the search after the replaced segment, as the source's
index arithmetic does for the equal-length patterns this file uses.
(The source would loop forever on an empty `substr`; the guard returns
the input unchanged instead - the file only ever replaces "/".) -/
def replaceList (pat repl : List Char) : List Char → List Char
  | [] => []
  | c :: rest =>
    if h : pat ≠ [] ∧ pat.isPrefixOf (c :: rest) then
      repl ++ replaceList pat repl ((c :: rest).drop pat.length)
    else
      c :: replaceList pat repl rest
termination_by l => l.length
decreasing_by
  · simp only [List.length_drop, List.length_cons]
    have hp : 0 < pat.length := List.length_pos.mpr h.1
    omega
  · simp only [List.length_cons]
    omega

/-- `Replace(input, substr, replacement)` from the source. -/
def Replace (input pat repl : String) : String :=
  String.mk (replaceList pat.data repl.data input.data)

/-- Modelled from the spec: `kConfCacheDir` is the fixed process-wide
stamp subdirectory path declared in Configurator.h (which is not under
src/); its concrete value is immaterial, only that it is a fixed prefix
prepended to the sanitized artifact path. -/
def kConfCacheDir : String := "/var/luna/preferences/ls2-stamps/"

/-- The stamp file path for an artifact: the cache directory plus the
artifact path with every "/" replaced by "_". -/
def stampPath (confFile : String) : String :=
  kConfCacheDir ++ Replace confFile ("/") ("_")

/-- A node of the artifact directory tree as the scan observes it:
a regular file, or a directory with its entries.  `openable = false`
means `opendir` fails on it; an entry whose node is `none` is one whose
`stat` fails. -/
inductive FsNode where
  | file : FsNode
  | dir (openable : Bool) (entries : List (String × Option FsNode)) : FsNode

/-- The scan-mutated portion of the engine state: the backlog
(`m_configs`, in vector order, back = last element) and the
parent-directory map (`m_parentDirMap`). -/
structure ScanState where
  configs : List String
  parentDirMap : List (String × String)
deriving DecidableEq, Repr

/-- `std::map` insertion through `operator[]`: replace or append. -/
def mapInsert (m : List (String × String)) (k v : String) : List (String × String) :=
  match m with
  | [] => [(k, v)]
  | (a, b) :: rest => if a = k then (a, v) :: rest else (a, b) :: mapInsert rest k v

/-- `std::map::find` followed by dereference. -/
def mapFind (m : List (String × String)) (k : String) : Option String :=
  match m with
  | [] => none
  | (a, b) :: rest => if a = k then some b else mapFind rest k

/-- The external collaborators of one engine instance: the handler's
virtual methods, the JSON parser, and the filesystem observations made
during this pass.  All are out-of-scope collaborators in the source
(virtual methods of subclasses, MojObject, libc). -/
structure Env where
  /-- virtual `ProcessConfig(filePath, MojObject&)` of the subclass -/
  processConfig : String → MojObject → MojErr
  /-- virtual `ProcessConfigRemoval(filePath, MojObject&)` of the subclass -/
  processConfigRemoval : String → MojObject → MojErr
  /-- virtual `CanCacheConfiguratorStatus` (base returns true) -/
  canCache : String → Bool
  /-- `MojObject::fromJson`: parse error code and parsed payload -/
  fromJson : String → MojErr × MojObject
  /-- `ifstream` contents of an artifact; `none` when the open fails -/
  fileContents : String → Option String
  /-- `MojStat`/`stat` mtime of an artifact file; `none` when stat fails -/
  mtimeOf : String → Option Mtime
  /-- whether `open(O_CREAT|O_WRONLY)` succeeds on a stamp path -/
  openOk : String → Bool
  /-- whether `futimens` succeeds on a stamp path -/
  futimesOk : String → Bool
  /-- the current time, used when the artifact cannot be stat'ed -/
  now : Mtime
  /-- the directory tree under `m_configDir`; `none` when it does not exist -/
  root : Option FsNode

/-- The per-instance members of `Configurator`. -/
structure Configurator where
  id : String
  currentType : RunType
  completed : Bool
  configDir : String
  scanned : Bool
  emptyConfigurator : Bool
  configs : List String
  pendingConfigs : List String
  parentDirMap : List (String × String)
deriving DecidableEq, Repr

/-- One engine instance together with the process-wide state it touches:
the static outcome lists `m_configureOk` / `m_configureFailed`, the stamp
directory, and the number of `ConfiguratorComplete` notifications the bus
client has received. -/
structure World where
  cfg : Configurator
  configureOk : List String
  configureFailed : List String
  stamps : Stamps
  notifyCount : Nat
deriving DecidableEq, Repr

/-- `Configurator::CanCacheConfiguratorStatus`: the base-class default,
overridable by subclasses (the override is `Env.canCache`). -/
def Configurator.CanCacheConfiguratorStatus (_confFile : String) : Bool :=
  true

/-- `Configurator::IsAlreadyConfigured`: false when caching is disabled
or either stat fails; otherwise compares `st_mtime` seconds. -/
def Configurator.IsAlreadyConfigured (env : Env) (stamps : Stamps) (confFile : String) : Bool :=
  if !env.canCache confFile then
    false
  else
    match lookupStamp stamps (stampPath confFile) with
    | none => false
    | some stampInfo =>
      match env.mtimeOf confFile with
      | none => false
      | some confInfo => decide (stampInfo.sec ≥ confInfo.sec)

/-- `Configurator::MarkConfigured` (the `UTIME_NOW` branch, the one
compiled on Linux): no-op when caching is disabled; stat the artifact
for the inherited timestamp (seconds + 1, nanoseconds kept), falling
back to the current time when stat fails; create the stamp; on
`futimens` failure unlink it again.  The function never raises. -/
def Configurator.MarkConfigured (env : Env) (stamps : Stamps) (confFile : String) : Stamps :=
  if !env.canCache confFile then
    stamps
  else
    let times : Option Mtime :=
      match env.mtimeOf confFile with
      | some confFileInfo => some { sec := confFileInfo.sec + 1, nsec := confFileInfo.nsec }
      | none => none
    let stamp := stampPath confFile
    if !env.openOk stamp then
      stamps
    else if !env.futimesOk stamp then
      eraseStamp stamps stamp
    else
      insertStamp stamps stamp (times.getD env.now)

/-- `Configurator::UnmarkConfigured`: no-op when caching is disabled;
otherwise unlink the stamp (an unlink failure is only logged). -/
def Configurator.UnmarkConfigured (env : Env) (stamps : Stamps) (confFile : String) : Stamps :=
  if !env.canCache confFile then
    stamps
  else
    eraseStamp stamps (stampPath confFile)

/-- `Configurator::ParentId`: the recorded parent directory name unless
the map entry is missing or empty, in which case the configurator id. -/
def Configurator.ParentId (c : Configurator) (filePath : String) : String :=
  match mapFind c.parentDirMap filePath with
  | none => c.id
  | some v => if v = "" then c.id else v

/-- `Configurator::ReadFile`: empty contents when the open fails. -/
def Configurator.ReadFile (env : Env) (filePath : String) : String :=
  match env.fileContents filePath with
  | none => ""
  | some contents => contents

/-- `Configurator::ProcessConfig(string, string)`: parse, early-return
the parse error through `MojErrCheck`, then the virtual overload. -/
def Configurator.ProcessConfigStr (env : Env) (filePath json : String) : MojErr :=
  let r := env.fromJson json
  if r.1 ≠ MojErrNone then r.1 else env.processConfig filePath r.2

/-- `Configurator::ProcessConfigRemoval(string, string)`. -/
def Configurator.ProcessConfigRemovalStr (env : Env) (filePath json : String) : MojErr :=
  let r := env.fromJson json
  if r.1 ≠ MojErrNone then r.1 else env.processConfigRemoval filePath r.2

/-- The dispatch switch in `Configurator::Run` over `m_currentType`. -/
def Configurator.dispatchErr (env : Env) (t : RunType) (filePath config : String) : MojErr :=
  match t with
  | RunType.Configure => Configurator.ProcessConfigStr env filePath config
  | RunType.Reconfigure => Configurator.ProcessConfigStr env filePath config
  | RunType.RemoveConfiguration => Configurator.ProcessConfigRemovalStr env filePath config

mutual

/-- `Configurator::GetConfigFiles`: false when `opendir` fails (missing
root, unreadable directory, or a non-directory), otherwise walk the
entries and return true. -/
def Configurator.GetConfigFiles (env : Env) (stamps : Stamps) (t : RunType)
    (parent directory : String) (node : Option FsNode) (st : ScanState) :
    Bool × ScanState :=
  match node with
  | none => (false, st)
  | some FsNode.file => (false, st)
  | some (FsNode.dir false _) => (false, st)
  | some (FsNode.dir true entries) =>
    (true, Configurator.GetConfigFilesLoop env stamps t parent directory entries st)

/-- The `readdir` while-loop of `GetConfigFiles`: skip `.` and `..`;
a `stat` failure breaks out of this directory level; recurse into
subdirectories (discarding their result); record the parent of each
regular file and push it unless the Configure-mode cache says it has
already run. -/
def Configurator.GetConfigFilesLoop (env : Env) (stamps : Stamps) (t : RunType)
    (parent directory : String) (entries : List (String × Option FsNode))
    (st : ScanState) : ScanState :=
  match entries with
  | [] => st
  | (filename, ent) :: rest =>
    if filename = "." ∨ filename = ".." then
      Configurator.GetConfigFilesLoop env stamps t parent directory rest st
    else
      let filePath := directory ++ "/" ++ filename
      match ent with
      | none => st
      | some (FsNode.dir op es) =>
        let r := Configurator.GetConfigFiles env stamps t filename filePath
          (some (FsNode.dir op es)) st
        Configurator.GetConfigFilesLoop env stamps t parent directory rest r.2
      | some FsNode.file =>
        let st1 :=
          if parent ≠ "" then
            { st with parentDirMap := mapInsert st.parentDirMap filePath parent }
          else st
        let st2 :=
          if !(decide (t = RunType.Configure) && Configurator.IsAlreadyConfigured env stamps filePath) then
            { st1 with configs := st1.configs ++ [filePath] }
          else st1
        Configurator.GetConfigFilesLoop env stamps t parent directory rest st2

end

/-- `Configurator::Complete`: notify the bus client
(`ConfiguratorComplete(this)`) and set `m_completed`. -/
def Configurator.Complete (w : World) : World :=
  { w with
    notifyCount := w.notifyCount + 1,
    cfg := { w.cfg with completed := true } }

/-- The pop-from-backlog / push-to-pending prefix of the dispatch branch
of `Configurator::Run` (`m_configs.pop_back()` after reading `back()`,
then `m_pendingConfigs.push_back(filePath)`). -/
def Configurator.popPush (w : World) (filePath : String) : World :=
  { w with
    cfg := { w.cfg with
      configs := w.cfg.configs.dropLast,
      pendingConfigs := w.cfg.pendingConfigs ++ [filePath] } }

/-- The synchronous-error branch of `Configurator::Run`: on
`MojErrInProgress` the artifact's content is appended to the ok list,
on any other error the artifact path is appended to the failed list;
either way `m_pendingConfigs.pop_back()` runs before the recursion. -/
def Configurator.syncErrWorld (w : World) (filePath config : String) (err : MojErr) : World :=
  { w with
    configureOk :=
      if err = MojErrInProgress then w.configureOk ++ [config] else w.configureOk,
    configureFailed :=
      if err = MojErrInProgress then w.configureFailed else w.configureFailed ++ [filePath],
    cfg := { w.cfg with pendingConfigs := w.cfg.pendingConfigs.dropLast } }

/-- The post-scan part of `Configurator::Run`: complete when backlog and
pending set are drained and not yet completed; otherwise pop the back of
the backlog, read it, dispatch it, and on a synchronous error recurse to
keep draining.  Returns `m_configs.empty()`. -/
def Configurator.RunLoop (env : Env) (w : World) : Bool × World :=
  match hl : w.cfg.configs.getLast? with
  | none =>
    if w.cfg.pendingConfigs = [] ∧ w.cfg.completed = false then
      (true, Configurator.Complete w)
    else
      (true, w)
  | some filePath =>
    if Configurator.dispatchErr env w.cfg.currentType filePath
        (Configurator.ReadFile env filePath) ≠ MojErrNone then
      Configurator.RunLoop env
        (Configurator.syncErrWorld (Configurator.popPush w filePath) filePath
          (Configurator.ReadFile env filePath)
          (Configurator.dispatchErr env w.cfg.currentType filePath
            (Configurator.ReadFile env filePath)))
    else
      ((Configurator.popPush w filePath).cfg.configs.isEmpty, Configurator.popPush w filePath)
termination_by w.cfg.configs.length
decreasing_by
  simp only [Configurator.syncErrWorld, Configurator.popPush, List.length_dropLast]
  have hne : w.cfg.configs ≠ [] := by
    intro hc
    rw [hc] at hl
    simp at hl
  have hp : 0 < w.cfg.configs.length := List.length_pos.mpr hne
  omega

/-- The lazy-scan prefix of `Configurator::Run`: on the first call, walk
`m_configDir`, record whether anything was found, and set `m_scanned`. -/
def Configurator.RunScan (env : Env) (w : World) : World :=
  if w.cfg.scanned then
    w
  else
    let r := Configurator.GetConfigFiles env w.stamps w.cfg.currentType ("") w.cfg.configDir env.root
      { configs := w.cfg.configs, parentDirMap := w.cfg.parentDirMap }
    { w with
      cfg := { w.cfg with
        configs := r.2.configs,
        parentDirMap := r.2.parentDirMap,
        emptyConfigurator := r.2.configs.isEmpty,
        scanned := true } }

/-- `Configurator::Run`. -/
def Configurator.Run (env : Env) (w : World) : Bool × World :=
  Configurator.RunLoop env (Configurator.RunScan env w)

/-- `Configurator::BusResponseAsync`: erase the config from the pending
list (a miss is only logged); extract the success flag (default true);
on failure append to the failed list - where a `toJson` failure
early-returns through `MojErrCheck` before `Run()` is reached; on
success append to the ok list, set the default-cache-behaviour flag and
update the cache in the direction selected by the run mode; finally call
`Run()` again and return `MojErrNone`.  Returns the result code, the
value of the `cacheConfigured` out-parameter, and the new state. -/
def Configurator.BusResponseAsync (env : Env) (w : World) (config : String)
    (response : MojObject) (err : MojErr) (cacheConfigured : Bool) :
    MojErr × Bool × World :=
  let w0 := { w with cfg := { w.cfg with pendingConfigs := w.cfg.pendingConfigs.erase config } }
  let success := response.returnValue.getD true
  if err ≠ MojErrNone ∨ success = false then
    let w1 := { w0 with configureFailed := w0.configureFailed ++ [config] }
    if response.toJsonErr ≠ MojErrNone then
      (response.toJsonErr, cacheConfigured, w1)
    else
      (MojErrNone, cacheConfigured, (Configurator.Run env w1).2)
  else
    let w1 := { w0 with configureOk := w0.configureOk ++ [config] }
    let w2 :=
      if w1.cfg.currentType ≠ RunType.RemoveConfiguration then
        { w1 with stamps := Configurator.MarkConfigured env w1.stamps config }
      else
        { w1 with stamps := Configurator.UnmarkConfigured env w1.stamps config }
    (MojErrNone, true, (Configurator.Run env w2).2)

/-- The members of `ConfiguratorCallback`: the cancelable slot, the
artifact path, and the single-shot / cache-request flags. -/
structure ConfiguratorCallback where
  slotActive : Bool
  config : String
  delegateInvoked : Bool
  unconfigure : Bool
  configure : Bool
  defaultCacheBehaviourUsed : Bool
deriving DecidableEq, Repr

/-- The constructor `ConfiguratorCallback(configurator, filePath)`. -/
def ConfiguratorCallback.init (filePath : String) : ConfiguratorCallback :=
  { slotActive := true
    config := filePath
    delegateInvoked := false
    unconfigure := false
    configure := false
    defaultCacheBehaviourUsed := false }

/-- `ConfiguratorCallback::DelegateResponse`: access denied when already
invoked; otherwise mark invoked, clear the default-cache flag, and
forward to `Configurator::BusResponseAsync` (whose out-parameter lands
back in `m_defaultCacheBehaviourUsed`). -/
def ConfiguratorCallback.DelegateResponse (env : Env) (cb : ConfiguratorCallback)
    (w : World) (response : MojObject) (err : MojErr) :
    MojErr × ConfiguratorCallback × World :=
  if cb.delegateInvoked then
    (MojErrAccessDenied, cb, w)
  else
    let cb1 := { cb with delegateInvoked := true, defaultCacheBehaviourUsed := false }
    let r := Configurator.BusResponseAsync env w cb1.config response err cb1.defaultCacheBehaviourUsed
    (r.1, { cb1 with defaultCacheBehaviourUsed := r.2.1 }, r.2.2)

/-- The outcome of one invocation of the virtual completion hook
`Response(response, err)`: either a normal return with a result code and
the (possibly mutated) callback and engine state, or a raised exception
with the state at the throw point. -/
inductive HookResult where
  | ok (result : MojErr) (cb : ConfiguratorCallback) (w : World) : HookResult
  | exn (cb : ConfiguratorCallback) (w : World) : HookResult

/-- The cache-update tail of `ResponseWrapper`: unless delegation's
default path already updated the cache, apply the hook's requested
unmark or mark. -/
def ConfiguratorCallback.cacheFinish (env : Env) (r : MojErr × ConfiguratorCallback × World) :
    MojErr × ConfiguratorCallback × World :=
  let result := r.1
  let cb := r.2.1
  let w := r.2.2
  if cb.defaultCacheBehaviourUsed = false then
    if cb.unconfigure then
      (result, cb, { w with stamps := Configurator.UnmarkConfigured env w.stamps cb.config })
    else if cb.configure then
      (result, cb, { w with stamps := Configurator.MarkConfigured env w.stamps cb.config })
    else
      (result, cb, w)
  else
    (result, cb, w)

/-- `ConfiguratorCallback::ResponseWrapper`: cancel the slot, run the
hook; a raised exception is caught and `MojErrThrowMsg(MojErrInternal,..)`
- an early return in the Mojo framework - ends the wrapper with
`MojErrInternal` right there; on a normal return, auto-delegate unless
the hook already did, passing the hook's result or the original error
code when the hook succeeded; then the cache-update tail. -/
def ConfiguratorCallback.ResponseWrapper (env : Env)
    (hook : ConfiguratorCallback → World → MojObject → MojErr → HookResult)
    (cb : ConfiguratorCallback) (w : World) (response : MojObject) (err : MojErr) :
    MojErr × ConfiguratorCallback × World :=
  let cb0 := { cb with slotActive := false }
  match hook cb0 w response err with
  | HookResult.exn cb1 w1 => (MojErrInternal, cb1, w1)
  | HookResult.ok result cb1 w1 =>
    ConfiguratorCallback.cacheFinish env
      (if cb1.delegateInvoked = false then
        ConfiguratorCallback.DelegateResponse env cb1 w1 response
          (if result = MojErrNone then err else result)
      else
        (result, cb1, w1))

/-- An externally driven step of one engine pass: an owner call to
`Run()`, or an asynchronous response delivered for some artifact. -/
inductive Event where
  | run : Event
  | busResponse (config : String) (response : MojObject) (err : MojErr) (b : Bool) : Event

/-- Apply one event to the state. -/
def stepW (env : Env) (w : World) : Event → World
  | Event.run => (Configurator.Run env w).2
  | Event.busResponse config response err b =>
    (Configurator.BusResponseAsync env w config response err b).2.2

/-- Apply a sequence of events to the state. -/
def runEvents (env : Env) (w : World) : List Event → World
  | [] => w
  | e :: es => runEvents env (stepW env w e) es

/-- One engine step preserves the notification count and the completed
flag, or notifies exactly once, flipping the flag from false to true. -/
def StepOk (w r : World) : Prop :=
  (r.notifyCount = w.notifyCount ∧ r.cfg.completed = w.cfg.completed) ∨
  (r.notifyCount = w.notifyCount + 1 ∧ w.cfg.completed = false ∧ r.cfg.completed = true)

/- Concrete instances used to exercise the theorems below. -/

/-- A baseline environment: handlers accept everything synchronously,
parsing always succeeds, no artifact file is readable, caching is
enabled, stamp filesystem operations succeed, the root is missing. -/
def env0 : Env :=
  { processConfig := fun _ _ => MojErrNone
    processConfigRemoval := fun _ _ => MojErrNone
    canCache := fun _ => true
    fromJson := fun _ => (MojErrNone, { returnValue := none, toJsonErr := MojErrNone })
    fileContents := fun _ => none
    mtimeOf := fun _ => none
    openOk := fun _ => true
    futimesOk := fun _ => true
    now := { sec := 0, nsec := 0 }
    root := none }

/-- A baseline engine instance that has already scanned an empty backlog. -/
def cfg0 : Configurator :=
  { id := "cfg"
    currentType := RunType.Configure
    completed := false
    configDir := "/etc/conf"
    scanned := true
    emptyConfigurator := false
    configs := []
    pendingConfigs := []
    parentDirMap := [] }

def world0 : World :=
  { cfg := cfg0, configureOk := [], configureFailed := [], stamps := [], notifyCount := 0 }

/-- A successful response payload (`returnValue` present and true). -/
def respOkObj : MojObject := { returnValue := some true, toJsonErr := MojErrNone }

/-- A response payload with no `returnValue` field. -/
def respNoneObj : MojObject := { returnValue := none, toJsonErr := MojErrNone }

/-- C1 counterexample input: a handler whose `CanCacheConfiguratorStatus`
override returns false. -/
def envC1 : Env := { env0 with canCache := fun _ => false }

def wC1 : World :=
  { world0 with
    cfg := { cfg0 with currentType := RunType.RemoveConfiguration, completed := true }
    stamps := [(stampPath ("/etc/conf/f"), { sec := 5, nsec := 0 })] }

/-- C2 counterexample input: a completion hook that raises. -/
def hookExn : ConfiguratorCallback → World → MojObject → MojErr → HookResult :=
  fun cb w _ _ => HookResult.exn cb w

/-- C2 witness input: a completion hook that returns success without
delegating. -/
def hookOk : ConfiguratorCallback → World → MojObject → MojErr → HookResult :=
  fun cb w _ _ => HookResult.ok MojErrNone cb w

def cbC2 : ConfiguratorCallback := ConfiguratorCallback.init ("/etc/conf/h")

def wC2 : World :=
  { world0 with cfg := { cfg0 with pendingConfigs := [("/etc/conf/h")], completed := true } }

/-- C3 counterexample input: dispatch reports the in-progress signal. -/
def envC3 : Env :=
  { env0 with
    processConfig := fun _ _ => MojErrInProgress
    fileContents := fun p => if p = ("/etc/conf/a") then some ("abc") else none }

def wC3 : World :=
  { world0 with cfg := { cfg0 with completed := true, configs := [("/etc/conf/a")] } }

/-- C4 counterexample input: caching disabled but mtime readable. -/
def envC4 : Env :=
  { env0 with
    canCache := fun _ => false
    mtimeOf := fun _ => some { sec := 5, nsec := 0 } }

/-- C4 witness input: caching enabled, mtime readable, stamp writable. -/
def envW4 : Env := { env0 with mtimeOf := fun _ => some { sec := 7, nsec := 2 } }

/-- C1 witness input: caching enabled, a stamp present for the artifact. -/
def wW1 : World :=
  { world0 with
    cfg := { cfg0 with currentType := RunType.RemoveConfiguration, completed := true }
    stamps := [(stampPath ("/etc/conf/f"), { sec := 3, nsec := 0 })] }

/-- C6 witness input: a correlator that has already delegated. -/
def cbInvoked : ConfiguratorCallback :=
  { ConfiguratorCallback.init ("/etc/conf/h") with delegateInvoked := true }

/-- C7 witness input: dispatch fails synchronously with a plain error. -/
def envC7 : Env := { env0 with processConfig := fun _ _ => -5 }

def wC7 : World :=
  { world0 with cfg := { cfg0 with completed := true, configs := [("/etc/conf/b")] } }

/-- C9 witness input: one backlog entry whose file cannot be opened. -/
def wC9 : World :=
  { world0 with cfg := { cfg0 with completed := true, configs := [("/etc/conf/c")] } }

/-- C10 witness input: one parent-map entry. -/
def cfgC10 : Configurator :=
  { cfg0 with parentDirMap := [(("/etc/conf/sub/d"), ("sub"))] }

/- Helper lemmas about the engine loop. -/

/-- Unfolding `RunLoop` when the backlog is empty. -/
theorem runLoop_unfold_none (env : Env) (w : World) (h : w.cfg.configs.getLast? = none) :
    Configurator.RunLoop env w =
      (if w.cfg.pendingConfigs = [] ∧ w.cfg.completed = false
       then (true, Configurator.Complete w) else (true, w)) := by
  rw [Configurator.RunLoop.eq_def]
  split
  · rfl
  · rename_i fp heq
    rw [h] at heq
    cases heq

/-- Unfolding `RunLoop` when the backlog is nonempty. -/
theorem runLoop_unfold_some (env : Env) (w : World) (fp : String)
    (h : w.cfg.configs.getLast? = some fp) :
    Configurator.RunLoop env w =
      (if Configurator.dispatchErr env w.cfg.currentType fp (Configurator.ReadFile env fp)
          ≠ MojErrNone then
         Configurator.RunLoop env
           (Configurator.syncErrWorld (Configurator.popPush w fp) fp
             (Configurator.ReadFile env fp)
             (Configurator.dispatchErr env w.cfg.currentType fp (Configurator.ReadFile env fp)))
       else
         ((Configurator.popPush w fp).cfg.configs.isEmpty, Configurator.popPush w fp)) := by
  rw [Configurator.RunLoop.eq_def]
  split
  · rename_i heq
    rw [h] at heq
    cases heq
  · rename_i fp2 heq
    rw [h] at heq
    cases heq
    rfl

/-- The scan prefix of `Run` touches neither the outcome lists, the
pending set, the completed flag, the cache, nor the bus client. -/
theorem runScan_preserves (env : Env) (w : World) :
    (Configurator.RunScan env w).notifyCount = w.notifyCount ∧
    (Configurator.RunScan env w).cfg.completed = w.cfg.completed ∧
    (Configurator.RunScan env w).cfg.pendingConfigs = w.cfg.pendingConfigs ∧
    (Configurator.RunScan env w).stamps = w.stamps ∧
    (Configurator.RunScan env w).configureOk = w.configureOk ∧
    (Configurator.RunScan env w).configureFailed = w.configureFailed := by
  unfold Configurator.RunScan
  split <;> exact ⟨rfl, rfl, rfl, rfl, rfl, rfl⟩

/-- Once the engine has scanned, `Run` is just the drain loop. -/
theorem run_eq_runLoop (env : Env) (w : World) (h : w.cfg.scanned = true) :
    Configurator.Run env w = Configurator.RunLoop env w := by
  unfold Configurator.Run Configurator.RunScan
  rw [h]
  simp

/-- The drain loop never touches the stamp directory. -/
theorem runLoop_stamps (env : Env) (w : World) :
    (Configurator.RunLoop env w).2.stamps = w.stamps := by
  induction w using Configurator.RunLoop.induct with
  | env => exact env
  | case1 w hl hc =>
    rw [runLoop_unfold_none env w hl, if_pos hc]
    rfl
  | case2 w hl hc =>
    rw [runLoop_unfold_none env w hl, if_neg hc]
  | case3 w fp hl herr ih =>
    rw [runLoop_unfold_some env w fp hl, if_pos herr]
    exact ih
  | case4 w fp hl herr =>
    rw [runLoop_unfold_some env w fp hl, if_neg herr]
    rfl

/-- `Run` never touches the stamp directory. -/
theorem run_stamps (env : Env) (w : World) :
    (Configurator.Run env w).2.stamps = w.stamps := by
  have h1 := runLoop_stamps env (Configurator.RunScan env w)
  have h2 := (runScan_preserves env w).2.2.2.1
  unfold Configurator.Run
  rw [h1, h2]

/-- The drain loop can only grow the failed list. -/
theorem runLoop_failed_mono (env : Env) (w : World) :
    ∀ x, x ∈ w.configureFailed → x ∈ (Configurator.RunLoop env w).2.configureFailed := by
  induction w using Configurator.RunLoop.induct with
  | env => exact env
  | case1 w hl hc =>
    intro x hx
    rw [runLoop_unfold_none env w hl, if_pos hc]
    exact hx
  | case2 w hl hc =>
    intro x hx
    rw [runLoop_unfold_none env w hl, if_neg hc]
    exact hx
  | case3 w fp hl herr ih =>
    intro x hx
    rw [runLoop_unfold_some env w fp hl, if_pos herr]
    apply ih
    show x ∈ (if Configurator.dispatchErr env w.cfg.currentType fp (Configurator.ReadFile env fp)
                 = MojErrInProgress
              then w.configureFailed else w.configureFailed ++ [fp])
    split
    · exact hx
    · exact List.mem_append_left _ hx
  | case4 w fp hl herr =>
    intro x hx
    rw [runLoop_unfold_some env w fp hl, if_neg herr]
    exact hx

/-- Notification behaviour of the drain loop: either nothing is notified
and the completed flag is untouched, or the sink is notified exactly once,
from a state whose pending set was empty and whose completed flag was
still clear, leaving backlog and pending set empty and the flag set. -/
theorem runLoop_spec (env : Env) (w : World) :
    ((Configurator.RunLoop env w).2.notifyCount = w.notifyCount ∧
     (Configurator.RunLoop env w).2.cfg.completed = w.cfg.completed) ∨
    ((Configurator.RunLoop env w).2.notifyCount = w.notifyCount + 1 ∧
     w.cfg.pendingConfigs = [] ∧ w.cfg.completed = false ∧
     (Configurator.RunLoop env w).2.cfg.completed = true ∧
     (Configurator.RunLoop env w).2.cfg.configs = [] ∧
     (Configurator.RunLoop env w).2.cfg.pendingConfigs = []) := by
  induction w using Configurator.RunLoop.induct with
  | env => exact env
  | case1 w hl hc =>
    have hnil : w.cfg.configs = [] := List.getLast?_eq_none_iff.mp hl
    rw [runLoop_unfold_none env w hl, if_pos hc]
    right
    exact ⟨rfl, hc.1, hc.2, rfl, hnil, hc.1⟩
  | case2 w hl hc =>
    rw [runLoop_unfold_none env w hl, if_neg hc]
    left
    exact ⟨rfl, rfl⟩
  | case3 w fp hl herr ih =>
    rw [runLoop_unfold_some env w fp hl, if_pos herr]
    have hpend : (w.cfg.pendingConfigs ++ [fp]).dropLast = w.cfg.pendingConfigs :=
      List.dropLast_concat
    rcases ih with ⟨h1, h2⟩ | ⟨h1, h2, h3, h4, h5, h6⟩
    · left
      exact ⟨h1, h2⟩
    · right
      refine ⟨h1, ?_, h3, h4, h5, h6⟩
      rw [← hpend]
      exact h2
  | case4 w fp hl herr =>
    rw [runLoop_unfold_some env w fp hl, if_neg herr]
    left
    exact ⟨rfl, rfl⟩

/-- Notification behaviour of a full `Run` call. -/
theorem run_spec (env : Env) (w : World) :
    ((Configurator.Run env w).2.notifyCount = w.notifyCount ∧
     (Configurator.Run env w).2.cfg.completed = w.cfg.completed) ∨
    ((Configurator.Run env w).2.notifyCount = w.notifyCount + 1 ∧
     w.cfg.pendingConfigs = [] ∧ w.cfg.completed = false ∧
     (Configurator.Run env w).2.cfg.completed = true ∧
     (Configurator.Run env w).2.cfg.configs = [] ∧
     (Configurator.Run env w).2.cfg.pendingConfigs = []) := by
  obtain ⟨p1, p2, p3, _, _, _⟩ := runScan_preserves env w
  have h := runLoop_spec env (Configurator.RunScan env w)
  unfold Configurator.Run
  rw [p1, p2, p3] at h
  exact h

/-- One `Run` call is a well-behaved notification step. -/
theorem run_step (env : Env) (w : World) : StepOk w (Configurator.Run env w).2 := by
  rcases run_spec env w with ⟨h1, h2⟩ | ⟨h1, _, h3, h4, _, _⟩
  · exact Or.inl ⟨h1, h2⟩
  · exact Or.inr ⟨h1, h3, h4⟩

/-- `StepOk` only depends on the starting counter and flag. -/
theorem stepOk_congr (w v r : World)
    (hn : v.notifyCount = w.notifyCount) (hc : v.cfg.completed = w.cfg.completed)
    (h : StepOk v r) : StepOk w r := by
  rcases h with ⟨h1, h2⟩ | ⟨h1, h2, h3⟩
  · exact Or.inl ⟨by rw [h1, hn], by rw [h2, hc]⟩
  · exact Or.inr ⟨by rw [h1, hn], by rw [← hc, h2], h3⟩

/-- One `BusResponseAsync` call is a well-behaved notification step. -/
theorem busResponseAsync_step (env : Env) (w : World) (config : String)
    (response : MojObject) (err : MojErr) (b : Bool) :
    StepOk w (Configurator.BusResponseAsync env w config response err b).2.2 := by
  simp only [Configurator.BusResponseAsync]
  split
  · split
    · exact Or.inl ⟨rfl, rfl⟩
    · exact stepOk_congr w _ _ rfl rfl (run_step env _)
  · split
    · exact stepOk_congr w _ _ rfl rfl (run_step env _)
    · exact stepOk_congr w _ _ rfl rfl (run_step env _)

/-- Every externally driven event is a well-behaved notification step. -/
theorem stepW_ok (env : Env) (w : World) (e : Event) : StepOk w (stepW env w e) := by
  cases e with
  | run => exact run_step env w
  | busResponse config response err b => exact busResponseAsync_step env w config response err b

/-- Once completed, no sequence of events ever notifies again. -/
theorem runEvents_done (env : Env) : ∀ (evs : List Event) (w : World),
    w.cfg.completed = true →
    (runEvents env w evs).notifyCount = w.notifyCount ∧
    (runEvents env w evs).cfg.completed = true := by
  intro evs
  induction evs with
  | nil => intro w h; exact ⟨rfl, h⟩
  | cons e es ih =>
    intro w h
    simp only [runEvents]
    rcases stepW_ok env w e with ⟨h1, h2⟩ | ⟨_, h2, _⟩
    · have := ih (stepW env w e) (by rw [h2, h])
      exact ⟨by rw [this.1, h1], this.2⟩
    · rw [h] at h2
      cases h2

/-- Starting from a not-yet-completed state, any event sequence notifies
the completion sink at most once. -/
theorem runEvents_bound (env : Env) : ∀ (evs : List Event) (w : World),
    w.cfg.completed = false →
    (runEvents env w evs).notifyCount ≤ w.notifyCount + 1 := by
  intro evs
  induction evs with
  | nil => intro w _; exact Nat.le_succ _
  | cons e es ih =>
    intro w h
    simp only [runEvents]
    rcases stepW_ok env w e with ⟨h1, h2⟩ | ⟨h1, _, h3⟩
    · have := ih (stepW env w e) (by rw [h2, h])
      omega
    · have := (runEvents_done env es (stepW env w e) h3).1
      omega

/-- Looking up the key just inserted yields the inserted mtime. -/
theorem lookupStamp_insert (s : Stamps) (k : String) (m : Mtime) :
    lookupStamp (insertStamp s k m) k = some m := by
  simp [insertStamp, lookupStamp, List.find?]

/-- Looking up an erased key yields nothing. -/
theorem lookupStamp_erase (s : Stamps) (k : String) :
    lookupStamp (eraseStamp s k) k = none := by
  unfold lookupStamp eraseStamp
  have h : List.find? (fun e => decide (e.1 = k)) (List.filter (fun e => decide (e.1 ≠ k)) s)
      = none := by
    rw [List.find?_eq_none]
    intro x hx
    have hmem := List.of_mem_filter hx
    simp at hmem ⊢
    exact hmem
  rw [h]
  rfl

/-- A singleton stamp list maps its key to its mtime. -/
theorem lookupStamp_singleton (k : String) (m : Mtime) :
    lookupStamp [(k, m)] k = some m := by
  simp [lookupStamp, List.find?]

/-- On a successful response in Remove mode, `BusResponseAsync` leaves the
stamp directory exactly as `UnmarkConfigured` leaves it. -/
theorem busResponseAsync_remove_stamps (env : Env) (w : World) (config : String)
    (response : MojObject) (err : MojErr) (b : Bool)
    (h1 : w.cfg.currentType = RunType.RemoveConfiguration)
    (h2 : err = MojErrNone)
    (h3 : response.returnValue.getD true = true) :
    (Configurator.BusResponseAsync env w config response err b).2.2.stamps
      = Configurator.UnmarkConfigured env w.stamps config := by
  simp only [Configurator.BusResponseAsync, h2, h3]
  simp only [ne_eq, not_true_eq_false, false_or, Bool.true_eq_false, if_false, h1,
    not_false_eq_true, if_true]
  rw [run_stamps]

/- Claim theorems. -/

/-- C1 counterexample: in Remove mode, after a successful asynchronous
response for an artifact whose `CanCacheStatus` is false, the Cache Stamp
is NOT erased - `UnmarkConfigured` returns early - contradicting the
claim that the erasure happens for every artifact. -/
theorem c1_counterexample :
    lookupStamp
      (Configurator.BusResponseAsync envC1 wC1 ("/etc/conf/f") respOkObj MojErrNone false).2.2.stamps
      (stampPath ("/etc/conf/f"))
      = some { sec := 5, nsec := 0 } := by
  rw [busResponseAsync_remove_stamps envC1 wC1 ("/etc/conf/f") respOkObj MojErrNone false
    rfl rfl rfl]
  show lookupStamp [(stampPath ("/etc/conf/f"), { sec := 5, nsec := 0 })] (stampPath ("/etc/conf/f"))
    = some { sec := 5, nsec := 0 }
  exact lookupStamp_singleton _ _

/-- C1 (amended): in Remove mode, after a successful asynchronous
response, the engine calls `UnmarkConfigured`, which erases the
artifact's Cache Stamp exactly when `CanCacheStatus` returns true for
it; when `CanCacheStatus` returns false it is a no-op and the stamp
directory is unchanged. -/
theorem c1_remove_unmarks_iff_cacheable (env : Env) (w : World) (config : String)
    (response : MojObject) (err : MojErr) (b : Bool)
    (h1 : w.cfg.currentType = RunType.RemoveConfiguration)
    (h2 : err = MojErrNone)
    (h3 : response.returnValue.getD true = true) :
    (env.canCache config = true →
      lookupStamp (Configurator.BusResponseAsync env w config response err b).2.2.stamps
        (stampPath config) = none) ∧
    (env.canCache config = false →
      (Configurator.BusResponseAsync env w config response err b).2.2.stamps = w.stamps) := by
  rw [busResponseAsync_remove_stamps env w config response err b h1 h2 h3]
  constructor
  · intro hc
    simp only [Configurator.UnmarkConfigured, hc, Bool.not_true, Bool.false_eq_true, if_false]
    exact lookupStamp_erase w.stamps (stampPath config)
  · intro hc
    simp [Configurator.UnmarkConfigured, hc]

/-- C1 witness: with caching enabled, the stamp is erased. -/
theorem c1_witness :
    lookupStamp
      (Configurator.BusResponseAsync env0 wW1 ("/etc/conf/f") respOkObj MojErrNone false).2.2.stamps
      (stampPath ("/etc/conf/f")) = none :=
  (c1_remove_unmarks_iff_cacheable env0 wW1 ("/etc/conf/f") respOkObj MojErrNone false
    rfl rfl rfl).1 rfl

/-- C2 counterexample: when the completion hook raises, `ResponseWrapper`
returns `MojErrInternal` right from the exception barrier - an early
return in the Mojo framework - so no auto-delegation happens: the
correlator is still not marked invoked and the engine state (including
the pending list) is untouched, contradicting the claim that the
correlator still auto-delegates in the exception case. -/
theorem c2_counterexample :
    ConfiguratorCallback.ResponseWrapper env0 hookExn cbC2 wC2 respNoneObj MojErrNone
      = (MojErrInternal, { cbC2 with slotActive := false }, wC2) ∧
    ({ cbC2 with slotActive := false } : ConfiguratorCallback).delegateInvoked = false ∧
    wC2.cfg.pendingConfigs = [("/etc/conf/h")] :=
  ⟨rfl, rfl, rfl⟩

/-- C2 (amended): when the hook returns normally and did not itself call
`Delegate`, the correlator auto-delegates using the hook's result, or
the original error code when the hook succeeded but the exchange itself
had failed; when the hook raises, the exception is caught and converted
to an internal-error code that is returned immediately, with no
auto-delegation and no cache update. -/
theorem c2_autodelegate_on_normal_return (env : Env)
    (hook : ConfiguratorCallback → World → MojObject → MojErr → HookResult)
    (cb : ConfiguratorCallback) (w : World) (response : MojObject) (err : MojErr) :
    (∀ result cb2 w2,
      hook { cb with slotActive := false } w response err = HookResult.ok result cb2 w2 →
      cb2.delegateInvoked = false →
      ConfiguratorCallback.ResponseWrapper env hook cb w response err =
        ConfiguratorCallback.cacheFinish env
          (ConfiguratorCallback.DelegateResponse env cb2 w2 response
            (if result = MojErrNone then err else result))) ∧
    (∀ cb2 w2,
      hook { cb with slotActive := false } w response err = HookResult.exn cb2 w2 →
      ConfiguratorCallback.ResponseWrapper env hook cb w response err
        = (MojErrInternal, cb2, w2)) := by
  constructor
  · intro result cb2 w2 hok hnd
    simp only [ConfiguratorCallback.ResponseWrapper]
    rw [hok]
    simp [hnd]
  · intro cb2 w2 hexn
    simp only [ConfiguratorCallback.ResponseWrapper]
    rw [hexn]

/-- C2 witness: a hook returning success without delegating leads to the
auto-delegation path. -/
theorem c2_witness :
    ConfiguratorCallback.ResponseWrapper env0 hookOk cbC2 wC2 respNoneObj MojErrNone
      = ConfiguratorCallback.cacheFinish env0
          (ConfiguratorCallback.DelegateResponse env0 { cbC2 with slotActive := false } wC2
            respNoneObj (if MojErrNone = MojErrNone then MojErrNone else MojErrNone)) :=
  (c2_autodelegate_on_normal_return env0 hookOk cbC2 wC2 respNoneObj MojErrNone).1
    MojErrNone { cbC2 with slotActive := false } wC2 rfl rfl

/-- C4 counterexample: for an artifact whose mtime can be read but whose
handler disables caching, `MarkConfigured` creates no stamp at all,
contradicting the claim quantified over every artifact with a readable
mtime. -/
theorem c4_counterexample :
    envC4.mtimeOf ("/etc/conf/g") = some { sec := 5, nsec := 0 } ∧
    Configurator.MarkConfigured envC4 [] ("/etc/conf/g") = [] :=
  ⟨rfl, rfl⟩

/-- C4 (amended): for every artifact whose mtime can be read, whose
handler allows caching, and whose stamp file can be opened,
`MarkConfigured` creates/overwrites the stamp with mtime equal to the
artifact's mtime plus one second (nanoseconds preserved), which is
strictly greater than the artifact's mtime; if setting the timestamp
fails, the partially created stamp is deleted.  (The translation is a
total function: the operation never raises.) -/
theorem c4_stamp_mtime_plus_one (env : Env) (stamps : Stamps) (confFile : String) (m : Mtime)
    (h1 : env.canCache confFile = true)
    (h2 : env.mtimeOf confFile = some m)
    (h3 : env.openOk (stampPath confFile) = true) :
    (env.futimesOk (stampPath confFile) = true →
      lookupStamp (Configurator.MarkConfigured env stamps confFile) (stampPath confFile)
        = some { sec := m.sec + 1, nsec := m.nsec } ∧
      Mtime.lt m { sec := m.sec + 1, nsec := m.nsec }) ∧
    (env.futimesOk (stampPath confFile) = false →
      lookupStamp (Configurator.MarkConfigured env stamps confFile) (stampPath confFile)
        = none) := by
  constructor
  · intro h4
    have hm : Configurator.MarkConfigured env stamps confFile
        = insertStamp stamps (stampPath confFile) { sec := m.sec + 1, nsec := m.nsec } := by
      simp [Configurator.MarkConfigured, h1, h2, h3, h4]
    refine ⟨?_, Or.inl (Nat.lt_succ_self m.sec)⟩
    rw [hm]
    exact lookupStamp_insert stamps (stampPath confFile) _
  · intro h4
    have hm : Configurator.MarkConfigured env stamps confFile
        = eraseStamp stamps (stampPath confFile) := by
      simp [Configurator.MarkConfigured, h1, h2, h3, h4]
    rw [hm]
    exact lookupStamp_erase stamps (stampPath confFile)

/-- C4 witness: a concrete artifact with mtime 7s/2ns gets a stamp at
8s/2ns, strictly later. -/
theorem c4_witness :
    lookupStamp (Configurator.MarkConfigured envW4 [] ("/etc/conf/g")) (stampPath ("/etc/conf/g"))
      = some { sec := 8, nsec := 2 } ∧
    Mtime.lt { sec := 7, nsec := 2 } { sec := 8, nsec := 2 } :=
  (c4_stamp_mtime_plus_one envW4 [] ("/etc/conf/g") { sec := 7, nsec := 2 } rfl rfl rfl).1 rfl

/-- C5: per pass, the completion sink is notified exactly once: a `Run`
call notifies at most once; when it notifies, the pending set was empty,
the completed flag was clear, the flag is then set, and backlog and
pending set are empty; a `Run` on a completed engine never notifies; a
`Run` on a drained, not-yet-completed engine does notify; and from a
not-yet-completed state, any sequence of `Run`/response events notifies
at most once in total. -/
theorem c5_completion_exactly_once (env : Env) (w : World) :
    ((Configurator.Run env w).2.notifyCount = w.notifyCount ∨
     (Configurator.Run env w).2.notifyCount = w.notifyCount + 1) ∧
    ((Configurator.Run env w).2.notifyCount = w.notifyCount + 1 →
      w.cfg.pendingConfigs = [] ∧ w.cfg.completed = false ∧
      (Configurator.Run env w).2.cfg.completed = true ∧
      (Configurator.Run env w).2.cfg.configs = [] ∧
      (Configurator.Run env w).2.cfg.pendingConfigs = []) ∧
    (w.cfg.completed = true → (Configurator.Run env w).2.notifyCount = w.notifyCount) ∧
    (w.cfg.scanned = true → w.cfg.configs = [] → w.cfg.pendingConfigs = [] →
      w.cfg.completed = false →
      (Configurator.Run env w).2.notifyCount = w.notifyCount + 1) ∧
    (w.cfg.completed = false →
      ∀ evs : List Event, (runEvents env w evs).notifyCount ≤ w.notifyCount + 1) := by
  refine ⟨?_, ?_, ?_, ?_, ?_⟩
  · rcases run_spec env w with ⟨h1, _⟩ | ⟨h1, _⟩
    · exact Or.inl h1
    · exact Or.inr h1
  · intro h
    rcases run_spec env w with ⟨h1, _⟩ | ⟨_, h2, h3, h4, h5, h6⟩
    · rw [h1] at h
      omega
    · exact ⟨h2, h3, h4, h5, h6⟩
  · intro h
    rcases run_spec env w with ⟨h1, _⟩ | ⟨_, _, h3, _⟩
    · exact h1
    · rw [h] at h3
      cases h3
  · intro hs hcfg hp hc
    rw [run_eq_runLoop env w hs, runLoop_unfold_none env w (by simp [hcfg]), if_pos ⟨hp, hc⟩]
    rfl
  · intro h evs
    exact runEvents_bound env evs w h

/-- C5 witness: on a drained, not-yet-completed engine a `Run` call
notifies; two consecutive `Run` events never notify twice. -/
theorem c5_witness :
    (Configurator.Run env0 world0).2.notifyCount = world0.notifyCount + 1 ∧
    (runEvents env0 world0 [Event.run, Event.run]).notifyCount ≤ world0.notifyCount + 1 := by
  constructor
  · exact (c5_completion_exactly_once env0 world0).2.2.2.1 rfl rfl rfl rfl
  · exact (c5_completion_exactly_once env0 world0).2.2.2.2 rfl [Event.run, Event.run]

/-- C6: the first `DelegateResponse` call marks the correlator invoked
and forwards the outcome to `BusResponseAsync`; every later call returns
`MojErrAccessDenied` with the callback and the whole engine state
(outcome lists, cache, everything) unchanged. -/
theorem c6_delegate_single_shot (env : Env) (cb : ConfiguratorCallback) (w : World)
    (response : MojObject) (err : MojErr) :
    (cb.delegateInvoked = true →
      ConfiguratorCallback.DelegateResponse env cb w response err
        = (MojErrAccessDenied, cb, w)) ∧
    (cb.delegateInvoked = false →
      (ConfiguratorCallback.DelegateResponse env cb w response err).2.1.delegateInvoked = true ∧
      ConfiguratorCallback.DelegateResponse env cb w response err =
        ((Configurator.BusResponseAsync env w cb.config response err false).1,
         { cb with
            delegateInvoked := true,
            defaultCacheBehaviourUsed :=
              (Configurator.BusResponseAsync env w cb.config response err false).2.1 },
         (Configurator.BusResponseAsync env w cb.config response err false).2.2)) := by
  constructor
  · intro h
    simp [ConfiguratorCallback.DelegateResponse, h]
  · intro h
    have heq : ConfiguratorCallback.DelegateResponse env cb w response err =
        ((Configurator.BusResponseAsync env w cb.config response err false).1,
         { cb with
            delegateInvoked := true,
            defaultCacheBehaviourUsed :=
              (Configurator.BusResponseAsync env w cb.config response err false).2.1 },
         (Configurator.BusResponseAsync env w cb.config response err false).2.2) := by
      simp [ConfiguratorCallback.DelegateResponse, h]
    exact ⟨by rw [heq], heq⟩

/-- C6 witness: a second delegation on a concrete correlator is refused
with everything unchanged; a first delegation marks it invoked. -/
theorem c6_witness :
    ConfiguratorCallback.DelegateResponse env0 cbInvoked world0 respNoneObj MojErrNone
      = (MojErrAccessDenied, cbInvoked, world0) ∧
    (ConfiguratorCallback.DelegateResponse env0 (ConfiguratorCallback.init ("/etc/conf/h"))
      world0 respNoneObj MojErrNone).2.1.delegateInvoked = true := by
  constructor
  · exact (c6_delegate_single_shot env0 cbInvoked world0 respNoneObj MojErrNone).1 rfl
  · exact ((c6_delegate_single_shot env0 (ConfiguratorCallback.init ("/etc/conf/h"))
      world0 respNoneObj MojErrNone).2 rfl).1

/-- C8: scanning a root that cannot be opened - nonexistent, a regular
file, or an unreadable directory - returns false and leaves the scan
state (in particular the backlog) untouched. -/
theorem c8_scan_missing_root (env : Env) (stamps : Stamps) (t : RunType)
    (parent directory : String) (root : Option FsNode) (st : ScanState)
    (h : ∀ entries, root ≠ some (FsNode.dir true entries)) :
    Configurator.GetConfigFiles env stamps t parent directory root st = (false, st) := by
  cases root with
  | none => rw [Configurator.GetConfigFiles.eq_def]
  | some node =>
    cases node with
    | file => rw [Configurator.GetConfigFiles.eq_def]
    | dir op entries =>
      cases op with
      | false => rw [Configurator.GetConfigFiles.eq_def]
      | true => exact absurd rfl (h entries)

/-- C8 witness: scanning a nonexistent root reports "not found" and
pushes nothing. -/
theorem c8_witness :
    Configurator.GetConfigFiles env0 [] RunType.Configure ("") ("/etc/conf") none
      { configs := [], parentDirMap := [] }
      = (false, { configs := [], parentDirMap := [] }) :=
  c8_scan_missing_root env0 [] RunType.Configure ("") ("/etc/conf") none
    { configs := [], parentDirMap := [] }
    (by intro entries h; exact Option.noConfusion h)

/-- C10: `ParentId` returns the recorded parent directory name when the
map has a nonempty entry for the path, and the engine's own id when the
entry is missing or empty. -/
theorem c10_parent_id (c : Configurator) (filePath : String) :
    (∀ v, mapFind c.parentDirMap filePath = some v → v ≠ "" →
      Configurator.ParentId c filePath = v) ∧
    ((mapFind c.parentDirMap filePath = none ∨ mapFind c.parentDirMap filePath = some "") →
      Configurator.ParentId c filePath = c.id) := by
  constructor
  · intro v hv hne
    unfold Configurator.ParentId
    rw [hv]
    simp [hne]
  · intro h
    unfold Configurator.ParentId
    rcases h with h | h <;> rw [h] <;> simp

/-- C10 witness: a mapped path yields its parent name, an unmapped path
the engine id. -/
theorem c10_witness :
    Configurator.ParentId cfgC10 ("/etc/conf/sub/d") = "sub" ∧
    Configurator.ParentId cfgC10 ("/etc/conf/other") = cfgC10.id := by
  constructor
  · exact (c10_parent_id cfgC10 ("/etc/conf/sub/d")).1 ("sub") (by decide) (by decide)
  · exact (c10_parent_id cfgC10 ("/etc/conf/other")).2 (Or.inl (by decide))

/-- C3 counterexample: after dispatch reports the in-progress signal for
the only backlog entry, the artifact is NOT kept in the Pending Set -
`m_pendingConfigs.pop_back()` runs on this branch too - and what is
recorded as applied is the artifact's content, while no asynchronous
outcome has arrived. -/
theorem c3_counterexample :
    (Configurator.Run envC3 wC3).2.cfg.pendingConfigs = [] ∧
    (Configurator.Run envC3 wC3).2.configureOk = [("abc")] := by
  have hstep : Configurator.Run envC3 wC3 = Configurator.RunLoop envC3
      { wC3 with configureOk := [("abc")], cfg := { wC3.cfg with configs := [] } } := by
    rw [run_eq_runLoop envC3 wC3 rfl,
        runLoop_unfold_some envC3 wC3 ("/etc/conf/a") rfl,
        if_pos (show Configurator.dispatchErr envC3 wC3.cfg.currentType ("/etc/conf/a")
          (Configurator.ReadFile envC3 ("/etc/conf/a")) ≠ MojErrNone by decide)]
    congr 1
  rw [hstep, runLoop_unfold_none envC3
      { wC3 with configureOk := [("abc")], cfg := { wC3.cfg with configs := [] } } (by decide),
    if_neg (by decide)]
  exact ⟨by decide, by decide⟩

/-- C3 (amended): when dispatch reports the in-progress signal, `Run`
appends the artifact's content to the applied-successfully list, pops
the entry it just pushed off the Pending Set (leaving the Pending Set
as it was before the dispatch), pops the artifact off the backlog, and
continues draining within the same call; the entry is not kept pending
until the asynchronous outcome arrives. -/
theorem c3_inprogress_records_ok_and_unpends (env : Env) (w : World) (fp : String)
    (h1 : w.cfg.scanned = true)
    (h2 : w.cfg.configs.getLast? = some fp)
    (h3 : Configurator.dispatchErr env w.cfg.currentType fp (Configurator.ReadFile env fp)
          = MojErrInProgress) :
    Configurator.Run env w =
      Configurator.RunLoop env
        { w with
          configureOk := w.configureOk ++ [Configurator.ReadFile env fp],
          cfg := { w.cfg with configs := w.cfg.configs.dropLast } } := by
  rw [run_eq_runLoop env w h1, runLoop_unfold_some env w fp h2,
      if_pos (show Configurator.dispatchErr env w.cfg.currentType fp
        (Configurator.ReadFile env fp) ≠ MojErrNone by rw [h3]; decide)]
  congr 1
  unfold Configurator.syncErrWorld Configurator.popPush
  rw [h3]
  simp [List.dropLast_concat]

/-- C3 witness: the amended statement at the concrete in-progress input. -/
theorem c3_witness :
    Configurator.Run envC3 wC3 =
      Configurator.RunLoop envC3
        { wC3 with
          configureOk := wC3.configureOk ++ [Configurator.ReadFile envC3 ("/etc/conf/a")],
          cfg := { wC3.cfg with configs := wC3.cfg.configs.dropLast } } :=
  c3_inprogress_records_ok_and_unpends envC3 wC3 ("/etc/conf/a") rfl rfl (by decide)

/-- C7: on any synchronous dispatch failure other than in-progress, `Run`
appends the artifact path to the failed list, removes the entry it just
pushed from the Pending Set, pops the artifact off the backlog, and
recurses into the drain loop within the same call; consequently the
artifact ends up in the failed list of the final state. -/
theorem c7_sync_failure_continues (env : Env) (w : World) (fp : String)
    (h1 : w.cfg.scanned = true)
    (h2 : w.cfg.configs.getLast? = some fp)
    (h3 : Configurator.dispatchErr env w.cfg.currentType fp (Configurator.ReadFile env fp)
          ≠ MojErrNone)
    (h4 : Configurator.dispatchErr env w.cfg.currentType fp (Configurator.ReadFile env fp)
          ≠ MojErrInProgress) :
    Configurator.Run env w =
      Configurator.RunLoop env
        { w with
          configureFailed := w.configureFailed ++ [fp],
          cfg := { w.cfg with configs := w.cfg.configs.dropLast } } ∧
    fp ∈ (Configurator.Run env w).2.configureFailed := by
  have heq : Configurator.Run env w =
      Configurator.RunLoop env
        { w with
          configureFailed := w.configureFailed ++ [fp],
          cfg := { w.cfg with configs := w.cfg.configs.dropLast } } := by
    rw [run_eq_runLoop env w h1, runLoop_unfold_some env w fp h2, if_pos h3]
    congr 1
    unfold Configurator.syncErrWorld Configurator.popPush
    simp [h4, List.dropLast_concat]
  refine ⟨heq, ?_⟩
  rw [heq]
  exact runLoop_failed_mono env _ fp (List.mem_append_right _ (by simp))

/-- C7 witness: a handler rejecting an artifact with a plain error code. -/
theorem c7_witness :
    Configurator.Run envC7 wC7 =
      Configurator.RunLoop envC7
        { wC7 with
          configureFailed := wC7.configureFailed ++ [("/etc/conf/b")],
          cfg := { wC7.cfg with configs := wC7.cfg.configs.dropLast } } ∧
    ("/etc/conf/b") ∈ (Configurator.Run envC7 wC7).2.configureFailed :=
  c7_sync_failure_continues envC7 wC7 ("/etc/conf/b") rfl rfl (by decide) (by decide)

/-- C9: when the artifact file cannot be opened, `ReadFile` yields the
empty string without raising or recording anything, and `Run` proceeds
to dispatch exactly that empty content to the handler as the artifact's
payload. -/
theorem c9_unreadable_file_empty_payload (env : Env) (w : World) (fp : String)
    (h1 : w.cfg.scanned = true)
    (h2 : w.cfg.configs.getLast? = some fp)
    (h3 : env.fileContents fp = none) :
    Configurator.ReadFile env fp = "" ∧
    Configurator.Run env w =
      (if Configurator.dispatchErr env w.cfg.currentType fp ("") ≠ MojErrNone then
        Configurator.RunLoop env
          (Configurator.syncErrWorld (Configurator.popPush w fp) fp ("")
            (Configurator.dispatchErr env w.cfg.currentType fp ("")))
      else
        ((Configurator.popPush w fp).cfg.configs.isEmpty, Configurator.popPush w fp)) := by
  have hr : Configurator.ReadFile env fp = "" := by
    unfold Configurator.ReadFile
    rw [h3]
  refine ⟨hr, ?_⟩
  rw [run_eq_runLoop env w h1, runLoop_unfold_some env w fp h2, hr]

/-- C9 witness: a concrete unreadable artifact is dispatched as "". -/
theorem c9_witness :
    Configurator.ReadFile env0 ("/etc/conf/c") = "" ∧
    Configurator.Run env0 wC9 =
      (if Configurator.dispatchErr env0 wC9.cfg.currentType ("/etc/conf/c") ("")
          ≠ MojErrNone then
        Configurator.RunLoop env0
          (Configurator.syncErrWorld (Configurator.popPush wC9 ("/etc/conf/c")) ("/etc/conf/c")
            ("") (Configurator.dispatchErr env0 wC9.cfg.currentType ("/etc/conf/c") ("")))
      else
        ((Configurator.popPush wC9 ("/etc/conf/c")).cfg.configs.isEmpty,
         Configurator.popPush wC9 ("/etc/conf/c"))) :=
  c9_unreadable_file_empty_payload env0 wC9 ("/etc/conf/c") rfl rfl rfl
